import Mathlib

/-!
# Verification of the `pval` quantity/dimension algebra

A shallow embedding of `src/quantity.py` (class `Quantity`) and the parts of
`src/exceptions.py` it uses.

Modelling choices:

* Python numbers are modelled by `PyNum`: an exact rational value together
  with a flag recording whether the Python value is a `float` (true division
  and exponentiation always yield floats in Python; sums and products of ints
  stay ints).  All the magnitudes and exponents exercised by the spec are
  exactly representable, so rational arithmetic coincides with the host
  arithmetic on them.
* A dimension tuple is a `List ℚ`: the constructor accepts tuples of any
  length (the length check lives in `__init__`), so the list type, not a
  fixed 7-vector, is the faithful model.
* Construction (`Quantity.__new__` followed by `Quantity.__init__`) either
  returns a plain scalar (the collapse rule of `__new__`), returns a tagged
  quantity, or raises; this is `construct`, returning
  `Except PyErr DimValue`.
* Exceptions are the constructors of `PyErr`.  `IncompatibleUnits` (from
  `src/exceptions.py`) is `PyErr.incompatibleUnits`; the `TypeError` raised
  by `__init__` for a wrong-length tuple is `PyErr.typeError`; attribute
  lookups that fail (e.g. `other.unit` on a non-Quantity) are
  `PyErr.attributeError`; division by zero is `PyErr.zeroDivisionError`.
-/

deriving instance DecidableEq for Except

/-- A Python numeric value: its exact rational value plus whether the Python
object is a `float` (as opposed to an `int`).  Python `==` on numbers compares
the numeric values and ignores the int/float distinction, so equality of the
`val` fields models Python numeric equality. -/
structure PyNum where
  val : ℚ
  isFloat : Bool
deriving DecidableEq

/-- A materialized `Quantity` instance: `__slots__ = ('value','unit')`. -/
structure Quantity where
  value : PyNum
  unit : List ℚ
deriving DecidableEq

/-- A Python value appearing as the "other" operand of a `Quantity` method:
a plain number, a `Quantity` instance, or some unrelated object (which has
neither a `unit` nor a `value` attribute). -/
inductive PyVal where
  | num (n : PyNum)
  | quant (q : Quantity)
  | obj
deriving DecidableEq

/-- The Python exceptions that the embedded code can raise. -/
inductive PyErr where
  | incompatibleUnits
  | typeError
  | attributeError
  | zeroDivisionError
deriving DecidableEq

/-- The result of constructing a `Quantity`: either a plain scalar (the
collapse rule of `__new__` for an all-zero dimension tuple) or a tagged
`Quantity` instance. -/
inductive DimValue where
  | scalar (v : PyNum)
  | quant (q : Quantity)
deriving DecidableEq

/-- The `unit` argument of the `Quantity` constructor: absent (so the seven
keyword exponents `m, kg, s, C, K, cand, mol` are used), another `Quantity`,
or a tuple of exponents (of any length). -/
inductive UnitArg where
  | kwargs (m kg s C K cand mol : ℚ)
  | ofQuantity (q : Quantity)
  | tuple (l : List ℚ)

/-- Python `a + b` on numbers: int + int is an int, anything else is a float. -/
def PyNum.add (a b : PyNum) : PyNum :=
  ⟨a.val + b.val, a.isFloat || b.isFloat⟩

/-- Python `a - b` on numbers. -/
def PyNum.sub (a b : PyNum) : PyNum :=
  ⟨a.val - b.val, a.isFloat || b.isFloat⟩

/-- Python `a * b` on numbers. -/
def PyNum.mul (a b : PyNum) : PyNum :=
  ⟨a.val * b.val, a.isFloat || b.isFloat⟩

/-- Python true division `a / b`: raises `ZeroDivisionError` on a zero
divisor, and always produces a float. -/
def PyNum.div (a b : PyNum) : Except PyErr PyNum :=
  if b.val = 0 then .error .zeroDivisionError
  else .ok ⟨a.val / b.val, true⟩

/-- The test `[t for t in unit if t != 0]` in `Quantity.__new__`: true iff
the tuple has at least one nonzero exponent. -/
def hasNonzero (l : List ℚ) : Bool :=
  l.any (fun t => t ≠ 0)

/-- The `Quantity` constructor: `Quantity.__new__` followed (when `__new__`
returns a fresh instance) by `Quantity.__init__`.

`__new__` first normalizes the candidate tuple (keyword exponents when `unit`
is `None`, or `unit.unit` when `unit` is a `Quantity`, else the raw tuple).
If the candidate tuple has a nonzero exponent a fresh instance is allocated
and `__init__` fills it in — raising `TypeError` when a raw tuple does not
have exactly 7 elements.  Otherwise `__new__` returns the bare `value` and
`__init__` is never run (the returned object is not a `Quantity`). -/
def construct (value : PyNum) (u : UnitArg) : Except PyErr DimValue :=
  let tup : List ℚ :=
    match u with
    | .kwargs m kg s C K cand mol => [m, kg, s, C, K, cand, mol]
    | .ofQuantity q => q.unit
    | .tuple l => l
  if hasNonzero tup then
    match u with
    | .kwargs m kg s C K cand mol => .ok (.quant ⟨value, [m, kg, s, C, K, cand, mol]⟩)
    | .ofQuantity q => .ok (.quant ⟨PyNum.mul value q.value, q.unit⟩)
    | .tuple l =>
        if l.length = 7 then .ok (.quant ⟨value, l⟩)
        else .error .typeError
  else
    .ok (.scalar value)

/-- The implicit dimension of a construction result: a collapsed scalar is
dimensionless (the all-zero 7-vector), a tagged quantity carries its `unit`. -/
def DimValue.dimension : DimValue → List ℚ
  | .scalar _ => List.replicate 7 0
  | .quant q => q.unit

/-- The numeric magnitude of a construction result. -/
def DimValue.magnitude : DimValue → ℚ
  | .scalar v => v.val
  | .quant q => q.value.val

/-- The attribute lookup `other.unit`: raises `AttributeError` unless `other`
is a `Quantity` instance. -/
def getUnit : PyVal → Except PyErr (List ℚ)
  | .quant q => .ok q.unit
  | _ => .error .attributeError

/-- The attribute lookup `other.value`. -/
def getValue : PyVal → Except PyErr PyNum
  | .quant q => .ok q.value
  | _ => .error .attributeError

/-- The body of the `try` block in `Quantity.compatible`:
`self.unit == other.unit`. -/
def compatibleBody (a : Quantity) (b : PyVal) : Except PyErr Bool :=
  match getUnit b with
  | .ok u => .ok (decide (a.unit = u))
  | .error e => .error e

/-- Method `Quantity.compatible`: evaluates `self.unit == other.unit` inside a
`try`/`except` that converts any exception into the answer `False`.  The
`Except` result type records that the method itself can, in principle,
raise — the theorem for the corresponding claim shows it never does. -/
def Quantity.compatible (a : Quantity) (b : PyVal) : Except PyErr Bool :=
  match compatibleBody a b with
  | .ok r => .ok r
  | .error _ => .ok false

/-- Method `Quantity.assert_compatible`: raises `IncompatibleUnits` when
`compatible` answers `False`. -/
def Quantity.assert_compatible (a : Quantity) (b : PyVal) : Except PyErr Unit :=
  match Quantity.compatible a b with
  | .ok true => .ok ()
  | .ok false => .error .incompatibleUnits
  | .error e => .error e

/-- Method `Quantity.__add__` (also `__radd__`): asserts compatibility, then
constructs `Quantity(self.value + other.value, unit=self.unit)`.  The
non-`Quantity` branch after a successful assertion is unreachable (the
assertion already failed for any operand without a `unit`); reaching it
would fault on the `other.value` attribute lookup. -/
def Quantity.add (a : Quantity) (b : PyVal) : Except PyErr DimValue :=
  match Quantity.assert_compatible a b with
  | .error e => .error e
  | .ok _ =>
      match getValue b with
      | .error e => .error e
      | .ok bv => construct (PyNum.add a.value bv) (.tuple a.unit)

/-- Method `Quantity.__sub__`. -/
def Quantity.sub (a : Quantity) (b : PyVal) : Except PyErr DimValue :=
  match Quantity.assert_compatible a b with
  | .error e => .error e
  | .ok _ =>
      match getValue b with
      | .error e => .error e
      | .ok bv => construct (PyNum.sub a.value bv) (.tuple a.unit)

/-- Method `Quantity.__mul__` (also `__rmul__`): a `Quantity` operand adds the
dimension tuples component-wise and multiplies the values; a plain number
scales the value and keeps the dimension; any other operand is a Python
`TypeError` (no `__mul__` applies). -/
def Quantity.mul (a : Quantity) (b : PyVal) : Except PyErr DimValue :=
  match b with
  | .quant q =>
      construct (PyNum.mul a.value q.value) (.tuple (List.zipWith (· + ·) a.unit q.unit))
  | .num n => construct (PyNum.mul a.value n) (.tuple a.unit)
  | .obj => .error .typeError

/-- Method `Quantity.__truediv__`: a `Quantity` operand subtracts the dimension
tuples component-wise and divides the values; a plain number divides the
value and keeps the dimension. -/
def Quantity.truediv (a : Quantity) (b : PyVal) : Except PyErr DimValue :=
  match b with
  | .quant q =>
      match PyNum.div a.value q.value with
      | .error e => .error e
      | .ok v => construct v (.tuple (List.zipWith (· - ·) a.unit q.unit))
  | .num n =>
      match PyNum.div a.value n with
      | .error e => .error e
      | .ok v => construct v (.tuple a.unit)
  | .obj => .error .typeError

/-- Method `Quantity.__pow__`: multiplies every dimension exponent by `n` and raises
the value to the `n`-th power.  Python's float exponentiation is abstracted
by the parameter `fpow` (floating-point value semantics are outside the
rational model); the dimension arithmetic is exact. -/
def Quantity.pow (fpow : PyNum → ℚ → PyNum) (a : Quantity) (n : ℚ) :
    Except PyErr DimValue :=
  construct (fpow a.value n) (.tuple (a.unit.map (fun t => n * t)))

/-- Method `Quantity.root`: divides every dimension exponent by `n` and raises the
value to the `1/n` power, with the same `fpow` abstraction as `Quantity.pow`. -/
def Quantity.root (fpow : PyNum → ℚ → PyNum) (a : Quantity) (n : ℚ) :
    Except PyErr DimValue :=
  construct (fpow a.value (1 / n)) (.tuple (a.unit.map (fun t => t / n)))

/-- Method `Quantity.__eq__`: asserts compatibility (raising `IncompatibleUnits` on
failure), then returns `(self.value == other.value) and (self.unit ==
other.unit)`. -/
def Quantity.eq (a : Quantity) (b : PyVal) : Except PyErr Bool :=
  match Quantity.assert_compatible a b with
  | .error e => .error e
  | .ok _ =>
      match b with
      | .quant q => .ok (decide (a.value.val = q.value.val) && decide (a.unit = q.unit))
      | .num n =>
          if a.value.val = n.val then .error .attributeError else .ok false
      | .obj => .ok false

/-- Method `Quantity.__bool__` (via `__nonzero__`): `True if self.value else False`;
a Python number is truthy iff it is nonzero. -/
def Quantity.bool (q : Quantity) : Bool :=
  if q.value.val ≠ 0 then true else false

/-- Decimal rendering of an exponent, matching Python's formatting of the
integer exponents that the code produces (a non-integral exponent falls back
to a numerator/denominator rendering). -/
def ratStr (q : ℚ) : String :=
  if q.den = 1 then toString q.num else toString q.num ++ "/" ++ toString q.den

/-- Python `f"{value}"` for a numeric value.  An `int` prints its decimal
digits.  CPython prints a `float` whose value is integral (and small enough
to avoid the scientific exponent form, true of everything the spec exercises) as the
digits followed by `".0"`; the shortest-round-trip rendering of non-integral
floats is outside the rational model and falls back to `ratStr`. -/
def PyNum.render (a : PyNum) : String :=
  if a.isFloat then
    if a.val.den = 1 then toString a.val.num ++ ".0" else ratStr a.val
  else ratStr a.val

/-- The axis abbreviations used by `Quantity.__str__` and
`Quantity.__repr__`. -/
def axisNames : List String :=
  ["m", "kg", "s", "C", "K", "cand", "mol"]

/-- Method `Quantity.__str__`: the positive exponents form the numerator group, the
negative ones the denominator group, an axis with exponent `±1` prints as its
bare name and otherwise as `name^exponent`, and the result is
`value[num/den]`, `value[num]`, `value[1/den]`, or the bare value, depending
on which groups are nonempty. -/
def Quantity.str (q : Quantity) : String :=
  let pairs := List.zip axisNames q.unit
  let num := String.intercalate " "
    ((pairs.filter (fun p => 0 < p.2)).map
      (fun p => if p.2 = 1 then p.1 else p.1 ++ "^" ++ ratStr p.2))
  let den := String.intercalate " "
    ((pairs.filter (fun p => p.2 < 0)).map
      (fun p => if p.2 = -1 then p.1 else p.1 ++ "^" ++ ratStr (-p.2)))
  if num ≠ "" then
    if den ≠ "" then PyNum.render q.value ++ "[" ++ num ++ "/" ++ den ++ "]"
    else PyNum.render q.value ++ "[" ++ num ++ "]"
  else
    if den ≠ "" then PyNum.render q.value ++ "[1/" ++ den ++ "]"
    else PyNum.render q.value

/-! ## Helper lemmas -/

theorem hasNonzero_eq_false_iff (l : List ℚ) :
    hasNonzero l = false ↔ ∀ t ∈ l, t = 0 := by
  simp [hasNonzero]

theorem hasNonzero_eq_true_iff (l : List ℚ) :
    hasNonzero l = true ↔ ∃ t ∈ l, t ≠ 0 := by
  simp [hasNonzero]

theorem zipWith_sub_self (l : List ℚ) :
    List.zipWith (· - ·) l l = List.replicate l.length 0 := by
  induction l with
  | nil => rfl
  | cons a l ih => simp [List.replicate, ih]

theorem hasNonzero_replicate_zero (n : ℕ) :
    hasNonzero (List.replicate n 0) = false := by
  simp [hasNonzero]

theorem construct_tuple_spec (v : PyNum) (l : List ℚ) (h : l.length = 7) :
    ∃ r, construct v (.tuple l) = .ok r ∧
      DimValue.dimension r = l ∧ DimValue.magnitude r = v.val := by
  cases hz : hasNonzero l with
  | true =>
      exact ⟨.quant ⟨v, l⟩, by simp [construct, hz, h], rfl, rfl⟩
  | false =>
      refine ⟨.scalar v, by simp [construct, hz], ?_, rfl⟩
      have hall : ∀ t ∈ l, t = 0 := (hasNonzero_eq_false_iff l).mp hz
      simp only [DimValue.dimension]
      symm
      rw [List.eq_replicate_iff]
      exact ⟨h, hall⟩

/-! ## Claim theorems -/

/-- C1: constructing from a magnitude `v` and a 7-tuple of exponents returns
the bare magnitude `v` (a plain scalar, not a Quantity instance) when all
seven exponents are zero, and a Quantity instance carrying `v` and the
exponents when at least one exponent is nonzero. -/
theorem C1_zero_dimension_collapses (v : PyNum) (u1 u2 u3 u4 u5 u6 u7 : ℚ) :
    (u1 = 0 ∧ u2 = 0 ∧ u3 = 0 ∧ u4 = 0 ∧ u5 = 0 ∧ u6 = 0 ∧ u7 = 0 →
      construct v (.kwargs u1 u2 u3 u4 u5 u6 u7) = .ok (.scalar v)) ∧
    (¬(u1 = 0 ∧ u2 = 0 ∧ u3 = 0 ∧ u4 = 0 ∧ u5 = 0 ∧ u6 = 0 ∧ u7 = 0) →
      construct v (.kwargs u1 u2 u3 u4 u5 u6 u7) =
        .ok (.quant ⟨v, [u1, u2, u3, u4, u5, u6, u7]⟩)) := by
  constructor
  · rintro ⟨rfl, rfl, rfl, rfl, rfl, rfl, rfl⟩
    rfl
  · intro h
    have hz : hasNonzero [u1, u2, u3, u4, u5, u6, u7] = true := by
      rw [hasNonzero_eq_true_iff]
      by_contra hc
      push_neg at hc
      simp at hc
      exact h ⟨hc.1, hc.2.1, hc.2.2.1, hc.2.2.2.1, hc.2.2.2.2.1,
        hc.2.2.2.2.2.1, hc.2.2.2.2.2.2⟩
    simp [construct, hz]

/-- Witness for C1 at `v = 3` with the all-zero tuple and at `v = 3` with a
nonzero length exponent. -/
theorem C1_zero_dimension_collapses_witness :
    construct ⟨3, false⟩ (.kwargs 0 0 0 0 0 0 0) = .ok (.scalar ⟨3, false⟩) ∧
    construct ⟨3, false⟩ (.kwargs 1 0 0 0 0 0 0) =
      .ok (.quant ⟨⟨3, false⟩, [1, 0, 0, 0, 0, 0, 0]⟩) :=
  ⟨(C1_zero_dimension_collapses ⟨3, false⟩ 0 0 0 0 0 0 0).1
      ⟨rfl, rfl, rfl, rfl, rfl, rfl, rfl⟩,
    (C1_zero_dimension_collapses ⟨3, false⟩ 1 0 0 0 0 0 0).2 (by simp)⟩

/-- C2: for Quantities whose dimension tuples differ, both addition and the
equality test raise `IncompatibleUnits` (equality raises rather than
returning `False`). -/
theorem C2_incompatible_add_eq_raise (a b : Quantity) (h : a.unit ≠ b.unit) :
    Quantity.add a (.quant b) = .error .incompatibleUnits ∧
    Quantity.eq a (.quant b) = .error .incompatibleUnits := by
  have hc : Quantity.compatible a (.quant b) = .ok false := by
    simp [Quantity.compatible, compatibleBody, getUnit, h]
  have ha : Quantity.assert_compatible a (.quant b) = .error .incompatibleUnits := by
    simp [Quantity.assert_compatible, hc]
  exact ⟨by simp [Quantity.add, ha], by simp [Quantity.eq, ha]⟩

/-- Witness for C2: a length Quantity against a mass Quantity. -/
theorem C2_incompatible_add_eq_raise_witness :
    ([1, 0, 0, 0, 0, 0, 0] : List ℚ) ≠ [0, 1, 0, 0, 0, 0, 0] ∧
    Quantity.add ⟨⟨5, false⟩, [1, 0, 0, 0, 0, 0, 0]⟩
        (.quant ⟨⟨3, false⟩, [0, 1, 0, 0, 0, 0, 0]⟩) = .error .incompatibleUnits ∧
    Quantity.eq ⟨⟨5, false⟩, [1, 0, 0, 0, 0, 0, 0]⟩
        (.quant ⟨⟨3, false⟩, [0, 1, 0, 0, 0, 0, 0]⟩) = .error .incompatibleUnits :=
  ⟨by decide,
    C2_incompatible_add_eq_raise ⟨⟨5, false⟩, [1, 0, 0, 0, 0, 0, 0]⟩
      ⟨⟨3, false⟩, [0, 1, 0, 0, 0, 0, 0]⟩ (by decide)⟩

/-- C9: `compatible` never raises — it always returns an answer, and when the
underlying dimension comparison fails (e.g. the other operand has no `unit`
attribute) the failure is caught and the answer is `False`. -/
theorem C9_compatible_never_raises (a : Quantity) (b : PyVal) :
    (∃ r, Quantity.compatible a b = .ok r) ∧
    (∀ e, compatibleBody a b = .error e → Quantity.compatible a b = .ok false) := by
  constructor
  · cases h : compatibleBody a b with
    | ok r => exact ⟨r, by simp [Quantity.compatible, h]⟩
    | error e => exact ⟨false, by simp [Quantity.compatible, h]⟩
  · intro e he
    simp [Quantity.compatible, he]

/-- Witness for C9: comparing against a unit-less object fails inside the
`try` block, and `compatible` answers `False`. -/
theorem C9_compatible_never_raises_witness :
    compatibleBody ⟨⟨5, false⟩, [1, 0, 0, 0, 0, 0, 0]⟩ .obj = .error .attributeError ∧
    Quantity.compatible ⟨⟨5, false⟩, [1, 0, 0, 0, 0, 0, 0]⟩ .obj = .ok false :=
  ⟨rfl,
    (C9_compatible_never_raises ⟨⟨5, false⟩, [1, 0, 0, 0, 0, 0, 0]⟩ .obj).2
      .attributeError rfl⟩

/-- C10: `bool(q)` is `True` exactly when the magnitude is nonzero; the
dimension tuple plays no role (the statement quantifies over every quantity,
including zero-magnitude quantities with nonzero exponents). -/
theorem C10_bool_iff_nonzero_magnitude (q : Quantity) :
    Quantity.bool q = true ↔ q.value.val ≠ 0 := by
  simp [Quantity.bool]

/-- C3: for Quantities `a`, `b`, the product adds the dimension tuples
component-wise (as 7-vectors) and multiplies the magnitudes; true division
(defined whenever the divisor's magnitude is nonzero) subtracts the dimension
tuples component-wise and divides the magnitudes. -/
theorem C3_mul_div_compose_dimensions (a b : Quantity)
    (ha : a.unit.length = 7) (hb : b.unit.length = 7) :
    (∃ r, Quantity.mul a (.quant b) = .ok r ∧
      DimValue.dimension r = List.zipWith (· + ·) a.unit b.unit ∧
      DimValue.magnitude r = a.value.val * b.value.val) ∧
    (b.value.val ≠ 0 →
      ∃ r, Quantity.truediv a (.quant b) = .ok r ∧
        DimValue.dimension r = List.zipWith (· - ·) a.unit b.unit ∧
        DimValue.magnitude r = a.value.val / b.value.val) := by
  constructor
  · have hlen : (List.zipWith (· + ·) a.unit b.unit).length = 7 := by
      simp [List.length_zipWith, ha, hb]
    obtain ⟨r, h1, h2, h3⟩ :=
      construct_tuple_spec (PyNum.mul a.value b.value) (List.zipWith (· + ·) a.unit b.unit) hlen
    exact ⟨r, by simpa [Quantity.mul] using h1, h2, by simpa [PyNum.mul] using h3⟩
  · intro hb0
    have hlen : (List.zipWith (· - ·) a.unit b.unit).length = 7 := by
      simp [List.length_zipWith, ha, hb]
    obtain ⟨r, h1, h2, h3⟩ :=
      construct_tuple_spec ⟨a.value.val / b.value.val, true⟩
        (List.zipWith (· - ·) a.unit b.unit) hlen
    refine ⟨r, ?_, h2, h3⟩
    simpa [Quantity.truediv, PyNum.div, hb0] using h1

/-- Witness for C3: `(5 m) * (3 s)` and `(5 m) / (3 s)`. -/
theorem C3_mul_div_compose_dimensions_witness :
    ([1, 0, 0, 0, 0, 0, 0] : List ℚ).length = 7 ∧
    ([0, 0, 1, 0, 0, 0, 0] : List ℚ).length = 7 ∧
    ((∃ r, Quantity.mul ⟨⟨5, false⟩, [1, 0, 0, 0, 0, 0, 0]⟩
        (.quant ⟨⟨3, false⟩, [0, 0, 1, 0, 0, 0, 0]⟩) = .ok r ∧
      DimValue.dimension r =
        List.zipWith (· + ·) [1, 0, 0, 0, 0, 0, 0] [0, 0, 1, 0, 0, 0, 0] ∧
      DimValue.magnitude r = (5 : ℚ) * 3) ∧
    ((3 : ℚ) ≠ 0 →
      ∃ r, Quantity.truediv ⟨⟨5, false⟩, [1, 0, 0, 0, 0, 0, 0]⟩
          (.quant ⟨⟨3, false⟩, [0, 0, 1, 0, 0, 0, 0]⟩) = .ok r ∧
        DimValue.dimension r =
          List.zipWith (· - ·) [1, 0, 0, 0, 0, 0, 0] [0, 0, 1, 0, 0, 0, 0] ∧
        DimValue.magnitude r = (5 : ℚ) / 3)) :=
  ⟨by decide, by decide,
    C3_mul_div_compose_dimensions ⟨⟨5, false⟩, [1, 0, 0, 0, 0, 0, 0]⟩
      ⟨⟨3, false⟩, [0, 0, 1, 0, 0, 0, 0]⟩ (by decide) (by decide)⟩

/-- C5: adding Quantities with equal dimension tuples succeeds; the result
keeps `a`'s dimension tuple and its magnitude is the sum of the magnitudes. -/
theorem C5_compatible_add (a b : Quantity) (ha : a.unit.length = 7)
    (hu : a.unit = b.unit) :
    ∃ r, Quantity.add a (.quant b) = .ok r ∧
      DimValue.dimension r = a.unit ∧
      DimValue.magnitude r = a.value.val + b.value.val := by
  have hc : Quantity.assert_compatible a (.quant b) = .ok () := by
    simp [Quantity.assert_compatible, Quantity.compatible, compatibleBody, getUnit, hu]
  obtain ⟨r, h1, h2, h3⟩ := construct_tuple_spec (PyNum.add a.value b.value) a.unit ha
  exact ⟨r, by simpa [Quantity.add, hc, getValue] using h1, h2,
    by simpa [PyNum.add] using h3⟩

/-- Witness for C5: `(5 m) + (3 m)`. -/
theorem C5_compatible_add_witness :
    ([1, 0, 0, 0, 0, 0, 0] : List ℚ).length = 7 ∧
    ([1, 0, 0, 0, 0, 0, 0] : List ℚ) = [1, 0, 0, 0, 0, 0, 0] ∧
    (∃ r, Quantity.add ⟨⟨5, false⟩, [1, 0, 0, 0, 0, 0, 0]⟩
        (.quant ⟨⟨3, false⟩, [1, 0, 0, 0, 0, 0, 0]⟩) = .ok r ∧
      DimValue.dimension r = [1, 0, 0, 0, 0, 0, 0] ∧
      DimValue.magnitude r = (5 : ℚ) + 3) :=
  ⟨by decide, rfl,
    C5_compatible_add ⟨⟨5, false⟩, [1, 0, 0, 0, 0, 0, 0]⟩
      ⟨⟨3, false⟩, [1, 0, 0, 0, 0, 0, 0]⟩ (by decide) rfl⟩

/-- C6: dividing a Quantity with nonzero magnitude by itself — or by any
Quantity with the same dimension tuple and the same magnitude — collapses to
the plain scalar `1` (a bare number, not a Quantity instance). -/
theorem C6_self_division_collapses_to_one (a b : Quantity)
    (hu : a.unit = b.unit) (hv : a.value.val = b.value.val)
    (h0 : a.value.val ≠ 0) :
    Quantity.truediv a (.quant b) = .ok (.scalar ⟨1, true⟩) := by
  have hb0 : b.value.val ≠ 0 := hv ▸ h0
  have hone : a.value.val / b.value.val = 1 := by
    rw [hv]
    exact div_self hb0
  have hz : List.zipWith (· - ·) a.unit b.unit = List.replicate a.unit.length 0 := by
    rw [← hu, zipWith_sub_self]
  simp [Quantity.truediv, PyNum.div, hb0, hone, construct, hz, hasNonzero_replicate_zero]

/-- Witness for C6: `(7 m) / (7 m)` is the plain scalar `1`. -/
theorem C6_self_division_collapses_to_one_witness :
    ([1, 0, 0, 0, 0, 0, 0] : List ℚ) = [1, 0, 0, 0, 0, 0, 0] ∧
    (7 : ℚ) = 7 ∧ (7 : ℚ) ≠ 0 ∧
    Quantity.truediv ⟨⟨7, false⟩, [1, 0, 0, 0, 0, 0, 0]⟩
      (.quant ⟨⟨7, false⟩, [1, 0, 0, 0, 0, 0, 0]⟩) = .ok (.scalar ⟨1, true⟩) :=
  ⟨rfl, rfl, by decide,
    C6_self_division_collapses_to_one ⟨⟨7, false⟩, [1, 0, 0, 0, 0, 0, 0]⟩
      ⟨⟨7, false⟩, [1, 0, 0, 0, 0, 0, 0]⟩ rfl rfl (by decide)⟩

/-- C7: for any Quantity (any float-power semantics `fpow`, any nonempty
nonzero dimension tuple of length 7) and any nonzero integer `n`,
`root(power(a, n), n)` carries a dimension tuple equal to `a`'s: `power`
multiplies every exponent by `n` and `root` divides it back by `n`. -/
theorem C7_root_pow_dimension_inverse (fpow : PyNum → ℚ → PyNum) (a : Quantity)
    (n : ℤ) (hn : n ≠ 0) (ha7 : a.unit.length = 7)
    (haz : hasNonzero a.unit = true) :
    ∃ b, Quantity.pow fpow a (n : ℚ) = .ok (.quant b) ∧
      ∃ c, Quantity.root fpow b (n : ℚ) = .ok (.quant c) ∧ c.unit = a.unit := by
  have hnq : (n : ℚ) ≠ 0 := Int.cast_ne_zero.mpr hn
  obtain ⟨t, ht, ht0⟩ := (hasNonzero_eq_true_iff a.unit).mp haz
  have hmapz : hasNonzero (a.unit.map (fun s => (n : ℚ) * s)) = true := by
    rw [hasNonzero_eq_true_iff]
    exact ⟨(n : ℚ) * t, List.mem_map_of_mem _ ht, mul_ne_zero hnq ht0⟩
  have hlen : (a.unit.map (fun s => (n : ℚ) * s)).length = 7 := by
    simp [ha7]
  refine ⟨⟨fpow a.value (n : ℚ), a.unit.map (fun s => (n : ℚ) * s)⟩, ?_, ?_⟩
  · simp [Quantity.pow, construct, hmapz, hlen]
  · have hback :
        (a.unit.map (fun s => (n : ℚ) * s)).map (fun s => s / (n : ℚ)) = a.unit := by
      rw [List.map_map]
      have hid : ((fun s => s / (n : ℚ)) ∘ (fun s => (n : ℚ) * s)) = id := by
        funext s
        simp [mul_div_cancel_left₀ s hnq]
      rw [hid, List.map_id]
    refine ⟨⟨fpow (fpow a.value (n : ℚ)) (1 / (n : ℚ)), a.unit⟩, ?_, rfl⟩
    simp only [Quantity.root]
    rw [hback]
    simp [construct, haz, ha7]

/-- Witness for C7 at `a = 5 m`, `n = 2`, with a trivial float-power
semantics. -/
theorem C7_root_pow_dimension_inverse_witness :
    (2 : ℤ) ≠ 0 ∧ ([1, 0, 0, 0, 0, 0, 0] : List ℚ).length = 7 ∧
    hasNonzero [1, 0, 0, 0, 0, 0, 0] = true ∧
    (∃ b, Quantity.pow (fun v _ => v) ⟨⟨5, false⟩, [1, 0, 0, 0, 0, 0, 0]⟩
        ((2 : ℤ) : ℚ) = .ok (.quant b) ∧
      ∃ c, Quantity.root (fun v _ => v) b ((2 : ℤ) : ℚ) = .ok (.quant c) ∧
        c.unit = [1, 0, 0, 0, 0, 0, 0]) :=
  ⟨by decide, by decide, by decide,
    C7_root_pow_dimension_inverse (fun v _ => v)
      ⟨⟨5, false⟩, [1, 0, 0, 0, 0, 0, 0]⟩ 2 (by decide) (by decide) (by decide)⟩

/-- C4: evaluation of the constructor at wrong-length tuples.  A wrong-length
tuple with a nonzero exponent does raise the construction error, but an
all-zero wrong-length tuple slips past the length check of `__init__`
(because `__new__` already collapsed the value to a bare scalar, so
`__init__` is never run) and construction silently returns the magnitude —
contradicting both the spec's mode-3 contract and the error message of
`__init__` itself ("unit value must be Quantity of tuple of length 7"). -/
theorem C4_wrong_length_tuple_behavior :
    construct ⟨5, false⟩ (.tuple [0, 0, 0]) = .ok (.scalar ⟨5, false⟩) ∧
    construct ⟨5, false⟩ (.tuple [0, 1, 0]) = .error .typeError :=
  ⟨rfl, rfl⟩

/-- C8 counterexample: `Quantity(10, m=1) / Quantity(2, s=1)` does produce a
Quantity of magnitude `5` with dimension `(1,0,-1,0,0,0,0)`, but Python's
true division produces the float `5.0`, so `str` renders `"5.0[m/s]"`, not
`"5[m/s]"` as claimed. -/
theorem C8_str_counterexample :
    Quantity.truediv ⟨⟨10, false⟩, [1, 0, 0, 0, 0, 0, 0]⟩
      (.quant ⟨⟨2, false⟩, [0, 0, 1, 0, 0, 0, 0]⟩)
      = .ok (.quant ⟨⟨5, true⟩, [1, 0, -1, 0, 0, 0, 0]⟩) ∧
    Quantity.str ⟨⟨5, true⟩, [1, 0, -1, 0, 0, 0, 0]⟩ ≠ "5[m/s]" := by
  refine ⟨?_, by decide⟩
  simp [Quantity.truediv, PyNum.div, construct, hasNonzero]
  norm_num

/-- C8 (amended): `Quantity(10, m=1) / Quantity(2, s=1)` yields a Quantity
with magnitude `5` (the float `5.0`) and dimension `(1,0,-1,0,0,0,0)`, and
its human rendering is exactly `"5.0[m/s]"`. -/
theorem C8_length_over_time_scenario :
    construct ⟨10, false⟩ (.kwargs 1 0 0 0 0 0 0)
      = .ok (.quant ⟨⟨10, false⟩, [1, 0, 0, 0, 0, 0, 0]⟩) ∧
    construct ⟨2, false⟩ (.kwargs 0 0 1 0 0 0 0)
      = .ok (.quant ⟨⟨2, false⟩, [0, 0, 1, 0, 0, 0, 0]⟩) ∧
    Quantity.truediv ⟨⟨10, false⟩, [1, 0, 0, 0, 0, 0, 0]⟩
      (.quant ⟨⟨2, false⟩, [0, 0, 1, 0, 0, 0, 0]⟩)
      = .ok (.quant ⟨⟨5, true⟩, [1, 0, -1, 0, 0, 0, 0]⟩) ∧
    DimValue.magnitude (.quant ⟨⟨5, true⟩, [1, 0, -1, 0, 0, 0, 0]⟩) = 5 ∧
    Quantity.str ⟨⟨5, true⟩, [1, 0, -1, 0, 0, 0, 0]⟩ = "5.0[m/s]" := by
  refine ⟨rfl, rfl, ?_, rfl, by decide⟩
  simp [Quantity.truediv, PyNum.div, construct, hasNonzero]
  norm_num
